import Mathlib

/-!
Shallow embedding of `src/services/engine/src/domain.rs` (poker-arena engine
domain model): card primitives, actions, seats, table configuration and the
hand-state aggregate, together with theorems settling the specification
claims about them.

Modelling conventions:
- Rust machine integers (`u8`, `u32`, `u64`, `usize`) are modelled as `Nat`;
  the code only compares them and never performs arithmetic that could
  overflow, so no modular reduction is needed.
- `Result<T, DomainError>` is modelled as `Except DomainError T`.
- `Uuid` values are opaque identifiers; they are modelled as `Nat`. The
  nondeterministic `Uuid::new_v4()` call inside `HandState::new` is modelled
  by passing the freshly generated id as an explicit argument
  (`fresh_hand_id`), so that the constructor is a pure function of its
  inputs plus the generated id.
- `Vec<T>` and slices are modelled as `List T`; the `BTreeSet` used to count
  distinct seat numbers is modelled by `List.dedup`, whose length is exactly
  the number of distinct elements.
-/

namespace PokerArena

/-- Default table-configuration constants from the top of `domain.rs`. -/
def DEFAULT_MAX_SEATS : Nat := 6

def DEFAULT_MIN_PLAYERS_TO_START : Nat := 2

def DEFAULT_STARTING_STACK : Nat := 10000

def DEFAULT_SMALL_BLIND : Nat := 50

def DEFAULT_BIG_BLIND : Nat := 100

def DEFAULT_ACTION_TIMEOUT_MS : Nat := 2000

/-- The `Suit` enum: one of four suits, in declaration order. -/
inductive Suit : Type
  | Clubs
  | Diamonds
  | Hearts
  | Spades
deriving DecidableEq, Repr, Fintype

/-- The `ActionKind` enum. -/
inductive ActionKind : Type
  | Fold
  | Check
  | Call
  | Bet
  | Raise
deriving DecidableEq, Repr, Fintype

/-- The flat `DomainError` enum from `domain.rs`. -/
inductive DomainError : Type
  | InvalidRank (value : Nat)
  | InvalidSeatNo (max actual : Nat)
  | MissingActionAmount (kind : ActionKind)
  | UnexpectedActionAmount (kind : ActionKind)
  | InvalidMaxSeats (value : Nat)
  | InvalidMinPlayersToStart
  | InvalidBlindStructure
  | NotEnoughActiveSeats (minimum actual : Nat)
  | TooManySeats (max actual : Nat)
  | DuplicateSeat
deriving DecidableEq, Repr

/-- The `Rank` newtype over `u8`. -/
structure Rank : Type where
  val : Nat
deriving DecidableEq, Repr

/-- `Rank::new`: ok iff the value lies in `2..=14`, else `InvalidRank`. -/
def Rank.new (value : Nat) : Except DomainError Rank :=
  if 2 ≤ value ∧ value ≤ 14 then
    Except.ok ⟨value⟩
  else
    Except.error (DomainError.InvalidRank value)

/-- A `Card` pairs a rank with a suit. -/
structure Card : Type where
  rank : Rank
  suit : Suit
deriving DecidableEq, Repr

/-- `Card::new`: total constructor. -/
def Card.new (rank : Rank) (suit : Suit) : Card :=
  ⟨rank, suit⟩

/-- A `Deck` owns an ordered list of cards. -/
structure Deck : Type where
  cards : List Card
deriving DecidableEq, Repr

/-- The suit iteration order used by `Deck::standard_52`. -/
def suitOrder : List Suit :=
  [Suit.Clubs, Suit.Diamonds, Suit.Hearts, Suit.Spades]

/-- `Deck::standard_52` with the internal `expect` made explicit: every rank
is produced through `Rank.new`, and a rank-construction failure (the panic
branch in the Rust code) surfaces as an `Except.error`. -/
def Deck.standard_52_checked : Except DomainError Deck := do
  let cards ← (suitOrder.flatMap fun suit =>
      (List.range' 2 13).map fun rank => (suit, rank)).mapM
    (fun p => do
      let rank ← Rank.new p.2
      pure (Card.new rank p.1))
  pure ⟨cards⟩

/-- `Deck::standard_52`: the infallible deck, suit-major over `suitOrder`
with ranks `2..=14` inside each suit. `deck_standard_52_infallible` proves it
agrees with the checked construction, so the panic branch is unreachable. -/
def Deck.standard_52 : Deck :=
  ⟨suitOrder.flatMap fun suit =>
    (List.range' 2 13).map fun rank => Card.new ⟨rank⟩ suit⟩

/-- `Action`: a kind with an optional amount. -/
structure Action : Type where
  kind : ActionKind
  amount : Option Nat
deriving DecidableEq, Repr

/-- The `matches!(kind, ActionKind::Bet | ActionKind::Raise)` test. -/
def ActionKind.needs_amount : ActionKind → Bool
  | ActionKind.Bet => true
  | ActionKind.Raise => true
  | _ => false

/-- `Action::new`: an amount is required for bet/raise and forbidden
otherwise. -/
def Action.new (kind : ActionKind) (amount : Option Nat) :
    Except DomainError Action :=
  if kind.needs_amount ∧ amount.isNone then
    Except.error (DomainError.MissingActionAmount kind)
  else if ¬ kind.needs_amount ∧ amount.isSome then
    Except.error (DomainError.UnexpectedActionAmount kind)
  else
    Except.ok ⟨kind, amount⟩

/-- The `SeatNo` newtype over `u8`. -/
structure SeatNo : Type where
  val : Nat
deriving DecidableEq, Repr

instance : LinearOrder SeatNo :=
  LinearOrder.lift' SeatNo.val (fun a b h => by cases a; cases b; simpa using h)

/-- `SeatNo::new`: fails `InvalidSeatNo` when the value is zero or exceeds
the given `max_seats`, else ok. -/
def SeatNo.new (value max_seats : Nat) : Except DomainError SeatNo :=
  if value = 0 ∨ value > max_seats then
    Except.error (DomainError.InvalidSeatNo max_seats value)
  else
    Except.ok ⟨value⟩

/-- The `SeatStatus` enum. -/
inductive SeatStatus : Type
  | Active
  | SittingOut
  | Busted
deriving DecidableEq, Repr, Fintype

/-- The `SeatState` record. -/
structure SeatState : Type where
  seat_no : SeatNo
  stack : Nat
  committed_in_round : Nat
  status : SeatStatus
deriving DecidableEq, Repr

/-- `SeatState::new`: total constructor, zero committed, active status. -/
def SeatState.new (seat_no : SeatNo) (stack : Nat) : SeatState :=
  ⟨seat_no, stack, 0, SeatStatus.Active⟩

/-- `SeatState::is_active`. -/
def SeatState.is_active (s : SeatState) : Bool :=
  s.status = SeatStatus.Active

/-- The `TableConfig` record. -/
structure TableConfig : Type where
  max_seats : Nat
  min_players_to_start : Nat
  starting_stack : Nat
  small_blind : Nat
  big_blind : Nat
  action_timeout_ms : Nat
deriving DecidableEq, Repr

/-- `TableConfig::default_v0`. -/
def TableConfig.default_v0 : TableConfig :=
  ⟨DEFAULT_MAX_SEATS, DEFAULT_MIN_PLAYERS_TO_START, DEFAULT_STARTING_STACK,
   DEFAULT_SMALL_BLIND, DEFAULT_BIG_BLIND, DEFAULT_ACTION_TIMEOUT_MS⟩

/-- `TableConfig::validate`: three short-circuit checks in fixed order. -/
def TableConfig.validate (c : TableConfig) : Except DomainError Unit :=
  if ¬ (2 ≤ c.max_seats ∧ c.max_seats ≤ DEFAULT_MAX_SEATS) then
    Except.error (DomainError.InvalidMaxSeats c.max_seats)
  else if c.min_players_to_start < 2 ∨ c.min_players_to_start > c.max_seats then
    Except.error DomainError.InvalidMinPlayersToStart
  else if c.big_blind < c.small_blind then
    Except.error DomainError.InvalidBlindStructure
  else
    Except.ok ()

/-- The `Street` enum. -/
inductive Street : Type
  | Preflop
  | Flop
  | Turn
  | River
deriving DecidableEq, Repr, Fintype

/-- The `HandPhase` enum; `Betting` carries its street. -/
inductive HandPhase : Type
  | Dealing
  | Betting (street : Street)
  | Showdown
  | Complete
deriving DecidableEq, Repr

/-- The `HandState` aggregate. Uuid fields are modelled as `Nat`. -/
structure HandState : Type where
  hand_id : Nat
  table_id : Nat
  hand_no : Nat
  button_seat : SeatNo
  acting_seat : SeatNo
  phase : HandPhase
  pot : Nat
  board : List Card
  seats : List SeatState
deriving DecidableEq, Repr

/-- Number of active seats, as computed in `HandState::new`. -/
def activeCount (seats : List SeatState) : Nat :=
  (seats.filter SeatState.is_active).length

/-- Number of distinct seat numbers: the `BTreeSet` cardinality computed in
`HandState::new`, modelled as the length of the deduplicated list. -/
def uniqueSeatCount (seats : List SeatState) : Nat :=
  (seats.map SeatState.seat_no).dedup.length

/-- `HandState::new`. The freshly generated `Uuid::new_v4()` value is passed
in as `fresh_hand_id` (see the module docstring). Validation order: config,
active count, seat count, duplicate seat numbers. -/
def HandState.new (fresh_hand_id : Nat) (table_id : Nat) (hand_no : Nat)
    (button_seat acting_seat : SeatNo) (seats : List SeatState)
    (config : TableConfig) : Except DomainError HandState :=
  match config.validate with
  | Except.error e => Except.error e
  | Except.ok _ =>
    if activeCount seats < config.min_players_to_start then
      Except.error
        (DomainError.NotEnoughActiveSeats config.min_players_to_start
          (activeCount seats))
    else if seats.length > config.max_seats then
      Except.error (DomainError.TooManySeats config.max_seats seats.length)
    else if uniqueSeatCount seats ≠ seats.length then
      Except.error DomainError.DuplicateSeat
    else
      Except.ok
        ⟨fresh_hand_id, table_id, hand_no, button_seat, acting_seat,
         HandPhase.Dealing, 0, [], seats⟩

/-- Projection discarding the success payload: `none` on success, the error
otherwise. Used to compare outcomes of `HandState::new` across inputs. -/
def outcomeOf (r : Except DomainError HandState) : Option DomainError :=
  match r with
  | Except.ok _ => none
  | Except.error e => some e

/-- Helper: a config-validation error propagates verbatim through
`HandState.new`. -/
theorem hs_new_validate_error (id t n : Nat) (b a : SeatNo)
    (seats : List SeatState) (config : TableConfig) (e : DomainError)
    (hv : config.validate = Except.error e) :
    HandState.new id t n b a seats config = Except.error e := by
  unfold HandState.new
  rw [hv]

/-- Helper: with a valid config and too few active seats, `HandState.new`
fails with `NotEnoughActiveSeats`. -/
theorem hs_new_not_enough_active (id t n : Nat) (b a : SeatNo)
    (seats : List SeatState) (config : TableConfig)
    (hv : config.validate = Except.ok ())
    (h1 : activeCount seats < config.min_players_to_start) :
    HandState.new id t n b a seats config =
      Except.error (DomainError.NotEnoughActiveSeats
        config.min_players_to_start (activeCount seats)) := by
  unfold HandState.new
  rw [hv]
  simp [h1]

/-- Helper: when every check passes, `HandState.new` succeeds with the
stated field values. -/
theorem hs_new_ok (id t n : Nat) (b a : SeatNo) (seats : List SeatState)
    (config : TableConfig) (hv : config.validate = Except.ok ())
    (h1 : config.min_players_to_start ≤ activeCount seats)
    (h2 : seats.length ≤ config.max_seats)
    (h3 : uniqueSeatCount seats = seats.length) :
    HandState.new id t n b a seats config =
      Except.ok ⟨id, t, n, b, a, HandPhase.Dealing, 0, [], seats⟩ := by
  unfold HandState.new
  rw [hv]
  simp [Nat.not_lt.mpr h1, Nat.not_lt.mpr h2, h3]

/-- Helper: `TableConfig.validate` only ever reports one of its three
config-level error kinds. -/
theorem tableConfig_validate_error_kinds (c : TableConfig) (e : DomainError)
    (hv : c.validate = Except.error e) :
    e = DomainError.InvalidMaxSeats c.max_seats ∨
    e = DomainError.InvalidMinPlayersToStart ∨
    e = DomainError.InvalidBlindStructure := by
  unfold TableConfig.validate at hv
  split_ifs at hv <;> simp_all

/-- Helper (pigeonhole): a roster with pairwise-distinct seat numbers, each
lying in `1..=m`, has length at most `m`. -/
theorem seats_length_le_of_nodup_in_range (seats : List SeatState) (m : Nat)
    (hnodup : (seats.map SeatState.seat_no).Nodup)
    (hrange : ∀ s ∈ seats, 1 ≤ s.seat_no.val ∧ s.seat_no.val ≤ m) :
    seats.length ≤ m := by
  have hinj : Function.Injective SeatNo.val := fun x y h => by
    cases x
    cases y
    simpa using h
  have hvals : ((seats.map SeatState.seat_no).map SeatNo.val).Nodup :=
    hnodup.map hinj
  have hsub : ((seats.map SeatState.seat_no).map SeatNo.val).toFinset ⊆
      Finset.Icc 1 m := by
    intro v hv
    rw [List.mem_toFinset] at hv
    obtain ⟨sn, hsn, rfl⟩ := List.mem_map.mp hv
    obtain ⟨s, hs, rfl⟩ := List.mem_map.mp hsn
    rcases hrange s hs with ⟨hl, hr⟩
    exact Finset.mem_Icc.mpr ⟨hl, hr⟩
  have hcard := Finset.card_le_card hsub
  rw [List.toFinset_card_of_nodup hvals] at hcard
  simpa [Nat.card_Icc] using hcard

/-- Claim C6: for every integer v, `Rank::new v` succeeds if and only if
`2 ≤ v ≤ 14` (returning the value unchanged), and otherwise fails with
`InvalidRank v`. -/
theorem rank_new_range (v : Nat) :
    ((∃ r, Rank.new v = Except.ok r) ↔ (2 ≤ v ∧ v ≤ 14)) ∧
    ((2 ≤ v ∧ v ≤ 14) → Rank.new v = Except.ok ⟨v⟩) ∧
    (¬ (2 ≤ v ∧ v ≤ 14) →
      Rank.new v = Except.error (DomainError.InvalidRank v)) := by
  unfold Rank.new
  by_cases h : 2 ≤ v ∧ v ≤ 14 <;> simp [h]

/-- Witness for C6: `Rank::new 20` fails with `InvalidRank 20`, and
`Rank::new 14` succeeds. -/
theorem rank_new_range_witness :
    Rank.new 20 = Except.error (DomainError.InvalidRank 20) ∧
    Rank.new 14 = Except.ok ⟨14⟩ :=
  ⟨(rank_new_range 20).2.2 (by decide), (rank_new_range 14).2.1 (by decide)⟩

/-- Claim C7: for every pair (v, max_seats), `SeatNo::new v max_seats`
succeeds if and only if `1 ≤ v ≤ max_seats` (the bound being the argument
supplied per call), and otherwise fails with
`InvalidSeatNo {max := max_seats, actual := v}`. -/
theorem seatNo_new_range (v m : Nat) :
    ((∃ s, SeatNo.new v m = Except.ok s) ↔ (1 ≤ v ∧ v ≤ m)) ∧
    ((1 ≤ v ∧ v ≤ m) → SeatNo.new v m = Except.ok ⟨v⟩) ∧
    (¬ (1 ≤ v ∧ v ≤ m) →
      SeatNo.new v m = Except.error (DomainError.InvalidSeatNo m v)) := by
  unfold SeatNo.new
  by_cases h : v = 0 ∨ v > m
  · simp [h]
    omega
  · simp [h]
    omega

/-- Witness for C7: seat 3 is invalid at a 2-seat table but valid at a
6-seat table. -/
theorem seatNo_new_range_witness :
    SeatNo.new 3 2 = Except.error (DomainError.InvalidSeatNo 2 3) ∧
    SeatNo.new 3 6 = Except.ok ⟨3⟩ :=
  ⟨(seatNo_new_range 3 2).2.2 (by decide), (seatNo_new_range 3 6).2.1 (by decide)⟩

/-- Claim C3: `Action::new kind amount` succeeds iff
(kind ∈ \x7bBet, Raise\x7d ⇔ amount is some); with a missing required amount
it fails `MissingActionAmount kind`; with a forbidden amount it fails
`UnexpectedActionAmount kind`; on success it returns the pair unchanged. -/
theorem action_new_pairing (kind : ActionKind) (amount : Option Nat) :
    ((∃ a, Action.new kind amount = Except.ok a) ↔
      ((kind = ActionKind.Bet ∨ kind = ActionKind.Raise) ↔ amount.isSome)) ∧
    ((kind = ActionKind.Bet ∨ kind = ActionKind.Raise) → amount = none →
      Action.new kind amount =
        Except.error (DomainError.MissingActionAmount kind)) ∧
    ((kind = ActionKind.Fold ∨ kind = ActionKind.Check ∨
        kind = ActionKind.Call) → amount.isSome →
      Action.new kind amount =
        Except.error (DomainError.UnexpectedActionAmount kind)) ∧
    (((kind = ActionKind.Bet ∨ kind = ActionKind.Raise) ↔ amount.isSome) →
      Action.new kind amount = Except.ok ⟨kind, amount⟩) := by
  cases kind <;> cases amount <;>
    simp [Action.new, ActionKind.needs_amount]

/-- Witness for C3: a raise without an amount fails, a call with an amount
fails, a bet with an amount succeeds. -/
theorem action_new_pairing_witness :
    Action.new ActionKind.Raise none =
      Except.error (DomainError.MissingActionAmount ActionKind.Raise) ∧
    Action.new ActionKind.Call (some 5) =
      Except.error (DomainError.UnexpectedActionAmount ActionKind.Call) ∧
    Action.new ActionKind.Bet (some 5) = Except.ok ⟨ActionKind.Bet, some 5⟩ :=
  ⟨(action_new_pairing ActionKind.Raise none).2.1 (Or.inr rfl) rfl,
   (action_new_pairing ActionKind.Call (some 5)).2.2.1
     (Or.inr (Or.inr rfl)) rfl,
   (action_new_pairing ActionKind.Bet (some 5)).2.2.2 (by simp)⟩

/-- Claim C5: `TableConfig::validate` checks, in fixed short-circuit order:
`2 ≤ max_seats ≤ 6` (global ceiling) else `InvalidMaxSeats`; then
`2 ≤ min_players_to_start ≤ max_seats` else `InvalidMinPlayersToStart`; then
`big_blind ≥ small_blind` else `InvalidBlindStructure`; in particular an
out-of-range `max_seats` combined with inverted blinds reports
`InvalidMaxSeats`. -/
theorem tableConfig_validate_order (c : TableConfig) :
    (¬ (2 ≤ c.max_seats ∧ c.max_seats ≤ 6) →
      c.validate = Except.error (DomainError.InvalidMaxSeats c.max_seats)) ∧
    ((2 ≤ c.max_seats ∧ c.max_seats ≤ 6) →
      ¬ (2 ≤ c.min_players_to_start ∧ c.min_players_to_start ≤ c.max_seats) →
      c.validate = Except.error DomainError.InvalidMinPlayersToStart) ∧
    ((2 ≤ c.max_seats ∧ c.max_seats ≤ 6) →
      (2 ≤ c.min_players_to_start ∧ c.min_players_to_start ≤ c.max_seats) →
      c.big_blind < c.small_blind →
      c.validate = Except.error DomainError.InvalidBlindStructure) ∧
    ((2 ≤ c.max_seats ∧ c.max_seats ≤ 6) →
      (2 ≤ c.min_players_to_start ∧ c.min_players_to_start ≤ c.max_seats) →
      c.small_blind ≤ c.big_blind →
      c.validate = Except.ok ()) ∧
    (¬ (2 ≤ c.max_seats ∧ c.max_seats ≤ 6) → c.big_blind < c.small_blind →
      c.validate = Except.error (DomainError.InvalidMaxSeats c.max_seats)) := by
  unfold TableConfig.validate
  refine ⟨fun h => ?_, fun h1 h2 => ?_, fun h1 h2 h3 => ?_,
    fun h1 h2 h3 => ?_, fun h _ => ?_⟩ <;>
    simp [DEFAULT_MAX_SEATS] at * <;> split_ifs <;> simp_all <;> omega

/-- Witness for C5: a config with max_seats = 9 and big_blind < small_blind
fails with `InvalidMaxSeats 9`, not `InvalidBlindStructure`; the default
config validates. -/
theorem tableConfig_validate_order_witness :
    TableConfig.validate ⟨9, 2, 10000, 100, 50, 2000⟩ =
      Except.error (DomainError.InvalidMaxSeats 9) ∧
    TableConfig.default_v0.validate = Except.ok () :=
  ⟨(tableConfig_validate_order ⟨9, 2, 10000, 100, 50, 2000⟩).2.2.2.2
      (by decide) (by decide),
   (tableConfig_validate_order TableConfig.default_v0).2.2.2.1
      (by decide) (by decide) (by decide)⟩

/-- Claim C4: the checked deck construction never fails (so the panic in
`Deck::standard_52` is unreachable and its infallible signature is sound),
and the resulting `cards()` view has length 52, no duplicate (rank, suit)
pair, and every one of the 4 × 13 (suit, rank) combinations with rank values
2 through 14. -/
theorem deck_standard_52_complete :
    Deck.standard_52_checked = Except.ok Deck.standard_52 ∧
    Deck.standard_52.cards.length = 52 ∧
    Deck.standard_52.cards.Nodup ∧
    (∀ s : Suit, ∀ i : Fin 13,
      Card.new ⟨2 + i.val⟩ s ∈ Deck.standard_52.cards) := by
  refine ⟨rfl, by decide, by decide, by decide⟩

/-- Claim C10: `Deck::standard_52` is deterministic with this exact order:
the i-th card has the (i / 13)-th suit of Clubs, Diamonds, Hearts, Spades
and rank value 2 + (i % 13). -/
theorem deck_standard_52_order :
    Deck.standard_52.cards = List.ofFn (fun i : Fin 52 =>
      Card.new ⟨2 + i.val % 13⟩ (suitOrder.getD (i.val / 13) Suit.Clubs)) := by
  decide

/-- Claim C1: `HandState::new` validates in fixed order and reports the
first violated invariant: a config-validation error is propagated verbatim;
otherwise fewer active seats than `min_players_to_start` fails
`NotEnoughActiveSeats`; otherwise more seats than `max_seats` fails
`TooManySeats`; otherwise duplicate seat numbers fail `DuplicateSeat`; and
no other error is ever returned. -/
theorem handState_new_validation_order (id t n : Nat) (b a : SeatNo)
    (seats : List SeatState) (config : TableConfig) :
    (∀ e, config.validate = Except.error e →
      HandState.new id t n b a seats config = Except.error e) ∧
    (config.validate = Except.ok () →
      activeCount seats < config.min_players_to_start →
      HandState.new id t n b a seats config =
        Except.error (DomainError.NotEnoughActiveSeats
          config.min_players_to_start (activeCount seats))) ∧
    (config.validate = Except.ok () →
      config.min_players_to_start ≤ activeCount seats →
      config.max_seats < seats.length →
      HandState.new id t n b a seats config =
        Except.error (DomainError.TooManySeats config.max_seats
          seats.length)) ∧
    (config.validate = Except.ok () →
      config.min_players_to_start ≤ activeCount seats →
      seats.length ≤ config.max_seats →
      uniqueSeatCount seats ≠ seats.length →
      HandState.new id t n b a seats config =
        Except.error DomainError.DuplicateSeat) ∧
    (∀ e, HandState.new id t n b a seats config = Except.error e →
      (config.validate = Except.error e ∨
        e = DomainError.NotEnoughActiveSeats config.min_players_to_start
          (activeCount seats) ∨
        e = DomainError.TooManySeats config.max_seats seats.length ∨
        e = DomainError.DuplicateSeat)) := by
  refine ⟨?_, ?_, ?_, ?_, ?_⟩
  · intro e he
    unfold HandState.new
    rw [he]
  · intro hv h1
    unfold HandState.new
    rw [hv]
    simp [h1]
  · intro hv h1 h2
    unfold HandState.new
    rw [hv]
    simp [Nat.not_lt.mpr h1, h2]
  · intro hv h1 h2 h3
    unfold HandState.new
    rw [hv]
    simp [Nat.not_lt.mpr h1, Nat.not_lt.mpr h2, h3]
  · intro e he
    unfold HandState.new at he
    rcases hv : config.validate with e2 | u
    · rw [hv] at he
      dsimp only at he
      injection he with h
      left
      rw [h]
    · cases u
      rw [hv] at he
      simp only [] at he
      split_ifs at he with h1 h2 h3 <;> simp_all

/-- Witness for C1: with the default config, one active and one sitting-out
seat fail with `NotEnoughActiveSeats 2 1` (the insufficient-active-players
scenario of the spec). -/
theorem handState_new_validation_order_witness :
    HandState.new 0 0 1 ⟨1⟩ ⟨1⟩
      [⟨⟨1⟩, 10000, 0, SeatStatus.Active⟩,
       ⟨⟨2⟩, 10000, 0, SeatStatus.SittingOut⟩]
      TableConfig.default_v0 =
      Except.error (DomainError.NotEnoughActiveSeats 2 1) :=
  (handState_new_validation_order 0 0 1 ⟨1⟩ ⟨1⟩
      [⟨⟨1⟩, 10000, 0, SeatStatus.Active⟩,
       ⟨⟨2⟩, 10000, 0, SeatStatus.SittingOut⟩]
      TableConfig.default_v0).2.1 rfl (by decide)

/-- Claim C2: when all four validation checks pass, `HandState::new` returns
a hand whose `hand_id` is the freshly generated id (modelled as the explicit
`id` argument), whose phase is Dealing, whose pot is 0, whose board is
empty, and whose remaining fields equal the arguments as given. -/
theorem handState_new_success (id t n : Nat) (b a : SeatNo)
    (seats : List SeatState) (config : TableConfig)
    (hv : config.validate = Except.ok ())
    (hmin : config.min_players_to_start ≤ activeCount seats)
    (hmax : seats.length ≤ config.max_seats)
    (hdup : uniqueSeatCount seats = seats.length) :
    HandState.new id t n b a seats config =
      Except.ok ⟨id, t, n, b, a, HandPhase.Dealing, 0, [], seats⟩ := by
  unfold HandState.new
  rw [hv]
  simp [Nat.not_lt.mpr hmin, Nat.not_lt.mpr hmax, hdup]

/-- Witness for C2: the success scenario of the spec: default config, two
active seats numbered 1 and 2 with stack 10000. -/
theorem handState_new_success_witness :
    HandState.new 7 3 1 ⟨1⟩ ⟨1⟩
      [SeatState.new ⟨1⟩ 10000, SeatState.new ⟨2⟩ 10000]
      TableConfig.default_v0 =
      Except.ok ⟨7, 3, 1, ⟨1⟩, ⟨1⟩, HandPhase.Dealing, 0, [],
        [SeatState.new ⟨1⟩ 10000, SeatState.new ⟨2⟩ 10000]⟩ :=
  handState_new_success 7 3 1 ⟨1⟩ ⟨1⟩
    [SeatState.new ⟨1⟩ 10000, SeatState.new ⟨2⟩ 10000]
    TableConfig.default_v0 rfl (by decide) (by decide) (by decide)

/-- Claim C8: `HandState::new` performs no validation of `button_seat` or
`acting_seat`: the outcome (success versus which error) is unchanged when
either of them is replaced by any other seat number. -/
theorem handState_new_ignores_button_acting (id t n : Nat)
    (b a b2 a2 : SeatNo) (seats : List SeatState) (config : TableConfig) :
    outcomeOf (HandState.new id t n b a seats config) =
      outcomeOf (HandState.new id t n b2 a2 seats config) := by
  unfold HandState.new outcomeOf
  rcases config.validate with e | u
  · rfl
  · cases u
    dsimp only
    split_ifs <;> rfl

/-- Claim C9: for a roster whose seat numbers are pairwise distinct and each
in `1..=config.max_seats`, the `TooManySeats` branch of `HandState::new` is
unreachable (pigeonhole gives `seats.length ≤ config.max_seats`), so the
result is success, a config-validation error, or `NotEnoughActiveSeats` —
never `TooManySeats` and never `DuplicateSeat`. -/
theorem handState_new_bounded_roster (id t n : Nat) (b a : SeatNo)
    (seats : List SeatState) (config : TableConfig)
    (hnodup : (seats.map SeatState.seat_no).Nodup)
    (hrange : ∀ s ∈ seats,
      1 ≤ s.seat_no.val ∧ s.seat_no.val ≤ config.max_seats) :
    ((∃ h, HandState.new id t n b a seats config = Except.ok h) ∨
      (∃ e, config.validate = Except.error e ∧
        HandState.new id t n b a seats config = Except.error e) ∨
      HandState.new id t n b a seats config =
        Except.error (DomainError.NotEnoughActiveSeats
          config.min_players_to_start (activeCount seats))) ∧
    (∀ mx act, HandState.new id t n b a seats config ≠
      Except.error (DomainError.TooManySeats mx act)) ∧
    HandState.new id t n b a seats config ≠
      Except.error DomainError.DuplicateSeat := by
  have hlen : seats.length ≤ config.max_seats :=
    seats_length_le_of_nodup_in_range seats config.max_seats hnodup hrange
  have hdup : uniqueSeatCount seats = seats.length := by
    unfold uniqueSeatCount
    rw [List.dedup_eq_self.mpr hnodup, List.length_map]
  rcases hv : config.validate with e | u
  · have hres := hs_new_validate_error id t n b a seats config e hv
    have hkind := tableConfig_validate_error_kinds config e hv
    refine ⟨Or.inr (Or.inl ⟨e, rfl, hres⟩), ?_, ?_⟩
    · intro mx act hcontra
      rw [hres] at hcontra
      rcases hkind with h | h | h <;> simp_all
    · intro hcontra
      rw [hres] at hcontra
      rcases hkind with h | h | h <;> simp_all
  · cases u
    by_cases h1 : activeCount seats < config.min_players_to_start
    · have hres := hs_new_not_enough_active id t n b a seats config hv h1
      refine ⟨Or.inr (Or.inr hres), ?_, ?_⟩
      · intro mx act hcontra
        rw [hres] at hcontra
        simp_all
      · intro hcontra
        rw [hres] at hcontra
        simp_all
    · have hres := hs_new_ok id t n b a seats config hv
        (Nat.not_lt.mp h1) hlen hdup
      refine ⟨Or.inl ⟨_, hres⟩, ?_, ?_⟩
      · intro mx act hcontra
        rw [hres] at hcontra
        simp_all
      · intro hcontra
        rw [hres] at hcontra
        simp_all

/-- Witness for C9: with `max_seats = 2` and two distinct in-range active
seats, the theorem applies and construction indeed succeeds. -/
theorem handState_new_bounded_roster_witness :
    ((∃ h, HandState.new 11 4 2 ⟨1⟩ ⟨2⟩
        [SeatState.new ⟨1⟩ 500, SeatState.new ⟨2⟩ 500]
        ⟨2, 2, 500, 50, 100, 2000⟩ = Except.ok h) ∨
      (∃ e, TableConfig.validate ⟨2, 2, 500, 50, 100, 2000⟩ =
          Except.error e ∧
        HandState.new 11 4 2 ⟨1⟩ ⟨2⟩
          [SeatState.new ⟨1⟩ 500, SeatState.new ⟨2⟩ 500]
          ⟨2, 2, 500, 50, 100, 2000⟩ = Except.error e) ∨
      HandState.new 11 4 2 ⟨1⟩ ⟨2⟩
          [SeatState.new ⟨1⟩ 500, SeatState.new ⟨2⟩ 500]
          ⟨2, 2, 500, 50, 100, 2000⟩ =
        Except.error (DomainError.NotEnoughActiveSeats 2
          (activeCount [SeatState.new ⟨1⟩ 500, SeatState.new ⟨2⟩ 500]))) ∧
    (∀ mx act, HandState.new 11 4 2 ⟨1⟩ ⟨2⟩
        [SeatState.new ⟨1⟩ 500, SeatState.new ⟨2⟩ 500]
        ⟨2, 2, 500, 50, 100, 2000⟩ ≠
      Except.error (DomainError.TooManySeats mx act)) ∧
    HandState.new 11 4 2 ⟨1⟩ ⟨2⟩
        [SeatState.new ⟨1⟩ 500, SeatState.new ⟨2⟩ 500]
        ⟨2, 2, 500, 50, 100, 2000⟩ ≠
      Except.error DomainError.DuplicateSeat :=
  handState_new_bounded_roster 11 4 2 ⟨1⟩ ⟨2⟩
    [SeatState.new ⟨1⟩ 500, SeatState.new ⟨2⟩ 500]
    ⟨2, 2, 500, 50, 100, 2000⟩ (by decide) (by decide)

end PokerArena
